import Mathlib

/-!
Shallow embedding of the control and simulation core of
`src/src/components/game/game.component.ts` (Gesture Racer 3D, v9.9.1),
together with theorems settling the frozen claims about it.

Conventions used throughout:
* JavaScript floating-point numbers are modelled as real numbers `ℝ`
  (exact arithmetic).  The object-pool manager, which uses only field
  arithmetic and order comparisons, is modelled over `ℚ` so that it stays
  executable.
* Every `Math.random()` draw is passed in as an explicit parameter.
* A JavaScript `TypeError` caused by reading `.x` / `.y` of a missing
  landmark (`hand[i]` out of range yields `undefined`) is modelled by
  `Except.error`; the error value carries the component state as of the
  throw point (signal writes that happened before the throw are kept,
  writes after it are lost).
* Rendering, DOM, audio-synthesis and persistence calls are external
  collaborators; fields that only feed them (mesh positions, gear signal,
  canvas overlays) are omitted, with a comment at each omission.
-/

namespace GestureRacer

/-! Constants, lines 21-29 of the source. -/

/-- Line 21: steering low-pass factor used each render tick. -/
noncomputable def LERP_FACTOR : ℝ := 0.1

/-- Line 25: full track width. -/
noncomputable def ROAD_WIDTH : ℝ := 24

/-- Line 26: x-coordinate of the side barrier rails. -/
noncomputable def SIDE_BARRIER_X : ℝ := 10

/-- Line 27: capacity of the obstacle pool. -/
def MAX_OBSTACLES : ℕ := 40

/-- Line 28: capacity of the coin pool. -/
def MAX_COINS : ℕ := 60

/-- Values of the `currentDriveState` signal (line 87): the strings
NEUTRAL / GAS / BRAKING. -/
inductive DriveState where
  | NEUTRAL
  | GAS
  | BRAKING
  deriving DecidableEq

/-- Values taken by the `aiSuggestion` signal in the modelled code paths
(lines 358, 705, 912, 1014). -/
inductive AiMsg where
  | SYSTEM_ONLINE
  | BARRIER_WARNING
  | CRITICAL_DAMAGE
  | PLUS_TEN_CREDITS
  deriving DecidableEq

/-- Values of the `aiSuggestionType` signal (line 91). -/
inductive AiMsgType where
  | INFO
  | WARN
  | DANGER
  deriving DecidableEq

/-- One hand-landmark point in normalized image coordinates, as produced by
the external landmark source. -/
structure Landmark where
  x : ℝ
  y : ℝ

/-- A hand observation: the list of landmark points of one detected hand.
The detector normally delivers exactly 21 points; the type does not force
this, matching the untyped `any[][]` of the source. -/
abbrev Hand := List Landmark

/-- Lines 31-39: one catalog car. `price` is in coins; `color` is a hex
color (presentation-only but kept since it is plain data). -/
structure CarModel where
  id : String
  name : String
  price : ℤ
  color : ℕ
  speedMult : ℝ
  handlingMult : ℝ
  unlocked : Bool

/-- Line 49: the starter car, also the fallback of
`availableCars().find(...) || CAR_CATALOG[0]`. -/
noncomputable def starterCar : CarModel :=
  { id := "starter_red", name := "Megatronix MK1", price := 0, color := 0xdc2626,
    speedMult := 1.0, handlingMult := 1.0, unlocked := true }

/-- Lines 48-53: the car catalog. -/
noncomputable def CAR_CATALOG : List CarModel :=
  [starterCar,
   { id := "sedan_blue", name := "MSIT Cruiser", price := 500, color := 0x2563eb,
     speedMult := 1.1, handlingMult := 0.9, unlocked := false },
   { id := "sport_yellow", name := "Cyber Hornet", price := 1500, color := 0xeab308,
     speedMult := 1.25, handlingMult := 1.1, unlocked := false },
   { id := "super_black", name := "Shadow V12", price := 5000, color := 0x111111,
     speedMult := 1.5, handlingMult := 1.3, unlocked := false }]

/-- The component state of `GameComponent` restricted to the control and
simulation core: reactive signals (score, health, coins, drive state, ...)
and the private physics fields (speed, carX, carZ, targetSteer,
currentSteer).  The multi-valued `gameState` signal is abstracted to the
running phase: `gameOver = false` models RUNNING, `gameOver = true` models
GAME_OVER (menu/shop phases are outside the modelled race loop).  The
THREE.Clock and audio objects are abstracted to their running/suspended
flags.  Scene-graph objects, the gear signal and the landmark canvas are
presentation-only and omitted. -/
@[ext]
structure GState where
  gameOver : Bool
  isPaused : Bool
  clockRunning : Bool
  audioSuspended : Bool
  bgmPlaying : Bool
  score : ℤ
  health : ℝ
  coins : ℤ
  speed : ℝ
  carX : ℝ
  carZ : ℝ
  targetSteer : ℝ
  currentSteer : ℝ
  driveState : DriveState
  twoHandMode : Bool
  virtualSteerAngle : ℝ
  difficultyLevel : ℤ
  aiSuggestion : AiMsg
  aiSuggestionType : AiMsgType
  availableCars : List CarModel
  selectedCarId : String

/-! Gesture interpreter, lines 757-802. -/

/-- JavaScript `Math.sign` on (non-NaN) numbers. -/
noncomputable def jsSign (x : ℝ) : ℝ :=
  if x < 0 then -1 else if 0 < x then 1 else 0

/-- Line 795: `Math.max(-1, Math.min(1, steerInput))`. -/
noncomputable def clamp1 (x : ℝ) : ℝ :=
  max (-1) (min 1 x)

/-- Lines 796-797: signed power curve
`Math.sign(s) * Math.pow(Math.abs(s), 1.5)`. -/
noncomputable def powCurve (s : ℝ) : ℝ :=
  jsSign s * |s| ^ (1.5 : ℝ)

/-- JavaScript `Math.hypot` on two arguments. -/
noncomputable def hypot (a b : ℝ) : ℝ :=
  Real.sqrt (a ^ 2 + b ^ 2)

/-- JavaScript `Math.atan2` (signed zeros are not modelled; `atan2 0 0 = 0`
and `atan2 0 x = pi` for negative `x`, as for the positive-zero inputs the
game feeds it). -/
noncomputable def atan2 (y x : ℝ) : ℝ :=
  if 0 < x then Real.arctan (y / x)
  else if x < 0 then
    (if 0 ≤ y then Real.arctan (y / x) + Real.pi else Real.arctan (y / x) - Real.pi)
  else
    (if 0 < y then Real.pi / 2 else if y < 0 then -(Real.pi / 2) else 0)

/-- Lines 770-772, one-hand joystick mode: dead-zoned raw steer from the
wrist-to-middle-knuckle x offset. -/
noncomputable def oneHandSteer (wrist middleKnuckle : Landmark) : ℝ :=
  let dx := middleKnuckle.x - wrist.x
  if |dx| < 0.03 then 0 else dx * (-8.0)

/-- Lines 774-775: fist openness, the mean wrist distance of the four
non-thumb fingertips (the `reduce` accumulates left to right from 0). -/
noncomputable def oneHandAvgDist (wrist t8 t12 t16 t20 : Landmark) : ℝ :=
  (0 + hypot (t8.x - wrist.x) (t8.y - wrist.y)
     + hypot (t12.x - wrist.x) (t12.y - wrist.y)
     + hypot (t16.x - wrist.x) (t16.y - wrist.y)
     + hypot (t20.x - wrist.x) (t20.y - wrist.y)) / 4

/-- Lines 777-778: hysteresis band mapping fist openness to the drive
state (`driveState` was initialized NEUTRAL at line 759). -/
noncomputable def oneHandDrive (wrist t8 t12 t16 t20 : Landmark) : DriveState :=
  if oneHandAvgDist wrist t8 t12 t16 t20 < 0.25 then DriveState.BRAKING
  else if oneHandAvgDist wrist t8 t12 t16 t20 > 0.35 then DriveState.GAS
  else DriveState.NEUTRAL

/-- Lines 784-789, two-hand wheel mode: the hand pair ordered by the
x-coordinate of landmark 9, then the angle of the connecting segment. -/
noncomputable def twoHandAngle (a b : Landmark) : ℝ :=
  let left := if a.x < b.x then a else b
  let right := if a.x < b.x then b else a
  atan2 (right.y - left.y) (right.x - left.x)

/-- Line 790: raw steer of two-hand mode, `angle * -3.0`. -/
noncomputable def twoHandSteer (a b : Landmark) : ℝ :=
  twoHandAngle a b * (-3.0)

/-- Lines 795-801, the post-processing shared by every branch of
`processHands`: clamp the raw steer to [-1,1], apply the signed power
curve, blend into `targetSteer` with the 0.7/0.3 moving average, and store
the drive state. -/
noncomputable def applySteerBlend (s : GState) (steerInputRaw : ℝ)
    (driveState : DriveState) : GState :=
  let steerInput := clamp1 steerInputRaw
  let steerInput := powCurve steerInput
  { s with targetSteer := s.targetSteer * 0.7 + steerInput * 0.3,
           driveState := driveState }

/-- Lines 757-802, `processHands(landmarks)`.  Zero hands: neutral with the
steer blend still applied to a raw steer of 0.  One hand: joystick mode,
reading landmarks 0, 9 and the four non-thumb fingertips 8/12/16/20; if any
of them is missing the `.x` access throws (`Except.error`); the
`isTwoHandMode` signal was already set `false` before the throw.  Two
hands: wheel mode reading landmark 9 of each hand, `isTwoHandMode` set
`true` before the potential throw, GAS unconditionally.  Three or more
hands (impossible with `numHands: 2` but kept faithful): no branch taken,
raw steer 0 and NEUTRAL still blended in.  The code contains no
landmark-count validation. -/
noncomputable def processHands (s : GState) (landmarks : List Hand) :
    Except GState GState :=
  match landmarks with
  | [] =>
      let s := { s with twoHandMode := false }
      .ok (applySteerBlend s 0 .NEUTRAL)
  | [hand] =>
      let s := { s with twoHandMode := false }
      match hand[0]?, hand[9]?, hand[8]?, hand[12]?, hand[16]?, hand[20]? with
      | some wrist, some middleKnuckle, some t8, some t12, some t16, some t20 =>
          .ok (applySteerBlend s (oneHandSteer wrist middleKnuckle)
            (oneHandDrive wrist t8 t12 t16 t20))
      | _, _, _, _, _, _ => .error s
  | [h1, h2] =>
      let s := { s with twoHandMode := true }
      match h1[9]?, h2[9]? with
      | some a, some b =>
          let s := { s with virtualSteerAngle := twoHandAngle a b * (180 / Real.pi) }
          .ok (applySteerBlend s (twoHandSteer a b) .GAS)
      | _, _ => .error s
  | _ =>
      .ok (applySteerBlend s 0 .NEUTRAL)

/-- One perception poll that yielded a landmark result (lines 739-755):
`predictWebcam` only calls `processHands` while `gameState` is RUNNING.  A
thrown `TypeError` propagates out of the scheduled callback, leaving the
component fields as they were at the throw point (`Except.error` payload);
subsequent state is that payload. -/
noncomputable def stepPoll (s : GState) (landmarks : List Hand) : GState :=
  if s.gameOver then s
  else
    match processHands s landmarks with
    | .ok s2 => s2
    | .error s2 => s2

/-! Vehicle dynamics and the render-loop tick, lines 652-736. -/

/-- Lines 680-683: the acceleration-rate step function of the current kph
(sequential overwrites in the source collapse to this nest, read from the
highest band down). -/
noncomputable def accelRate (currentKph : ℝ) : ℝ :=
  if currentKph > 180 then 0.25
  else if currentKph > 120 then 0.33
  else if currentKph > 60 then 0.33
  else 0.2

/-- Lines 679-692: per-tick speed integration for each drive state, with
the GAS clamp at `maxSpeed` and the floor at 0 for BRAKING / NEUTRAL. -/
noncomputable def speedStep (driveState : DriveState) (speed dt maxSpeed : ℝ) : ℝ :=
  match driveState with
  | .GAS =>
      let s := speed + accelRate (speed * 60) * dt
      if s > maxSpeed then maxSpeed else s
  | .BRAKING =>
      let s := speed - 12.0 * dt
      if s < 0 then 0 else s
  | .NEUTRAL =>
      let s := speed - 1.0 * dt
      if s < 0 then 0 else s

/-- Line 673: `difficulty = 1 + Math.floor(score/2000) * 0.2`. -/
noncomputable def difficultyOf (score : ℤ) : ℝ :=
  1 + (⌊(score : ℝ) / 2000⌋ : ℝ) * 0.2

/-- Line 674: the value stored in the `difficultyLevel` signal,
`Math.floor(difficulty) + 1`. -/
noncomputable def difficultyLevelOf (score : ℤ) : ℤ :=
  ⌊difficultyOf score⌋ + 1

/-- Line 668: `availableCars().find(c => c.id === selectedCarId()) ||
CAR_CATALOG[0]`. -/
noncomputable def currentCarOf (s : GState) : CarModel :=
  ((s.availableCars.find? fun c => c.id == s.selectedCarId).getD starterCar)

/-- Lines 1011-1022, `crash(fatal)`: health penalty, speed and steering
collapse, critical advisory; at zero health the race ends (`stopAllLoops`,
leaderboard finalization, `saveData` and `stopAudio` are external). -/
noncomputable def crash (s : GState) (fatal : Bool) : GState :=
  let s :=
    if fatal then { s with health := 0 }
    else { s with health := max 0 (s.health - 34) }
  let s := { s with speed := s.speed * 0.2, currentSteer := 0, targetSteer := 0,
                    aiSuggestion := .CRITICAL_DAMAGE, aiSuggestionType := .DANGER }
  if s.health ≤ 0 then { s with gameOver := true } else s

/-- Per-tick inputs that reach the vehicle/progression state from outside:
the elapsed-time delta from the THREE.Clock, and the outcome of the random
entity interactions of `updateEntities` (lines 879-917) as they act on the
component state: each obstacle whose collision test fires calls `crash()`,
each collected coin adds 10 coins and posts the credit advisory.  The pool
slots themselves are modelled separately (`ObstacleSlot` below). -/
structure TickEnv where
  dt : ℝ
  obstacleHits : ℕ
  coinsTaken : ℕ

/-- The component-state effects of `updateEntities` (lines 879-917): the
obstacle loop runs `crash()` once per colliding active obstacle (line 900),
then the coin loop pays 10 coins per overlapped coin and posts
`+10 CREDITS` (lines 911-912).  Spawning and pool-slot motion do not touch
the vehicle state. -/
noncomputable def updateEntitiesCar (s : GState) (e : TickEnv) : GState :=
  let s := (fun st => crash st false)^[e.obstacleHits] s
  if 0 < e.coinsTaken then
    { s with coins := s.coins + 10 * e.coinsTaken,
             aiSuggestion := .PLUS_TEN_CREDITS }
  else s

/-- Lines 668-714 of `animate()`: difficulty from score, speed
integration, steering low-pass, lateral movement and the barrier branch.
There is no clamping of `carX`: the barrier branch (lines 702-708) only
drains health, damps speed, posts the warning and possibly ends the race
through `crash(true)` — which does not return early, the remainder of the
tick still executes on the damped speed, exactly as in the source. -/
noncomputable def animateVehicle (s : GState) (e : TickEnv) : GState :=
  let currentCar := currentCarOf s
  let difficulty := difficultyOf s.score
  let s := { s with difficultyLevel := ⌊difficulty⌋ + 1 }
  let maxSpeed := 5.5 * currentCar.speedMult * (1 + difficulty * 0.05)
  let s := { s with speed := speedStep s.driveState s.speed e.dt maxSpeed }
  let s := { s with currentSteer :=
               s.currentSteer + (s.targetSteer - s.currentSteer) * LERP_FACTOR }
  let speedFactor := max 0.5 (s.speed / maxSpeed)
  let handling := 14.0 * currentCar.handlingMult * speedFactor
  let turnAmount := s.currentSteer * handling * e.dt
  let s := { s with carX := s.carX + turnAmount }
  let barrierLimit := SIDE_BARRIER_X - 1.5
  if s.carX > barrierLimit ∨ s.carX < -barrierLimit then
    let s := { s with health := max 0 (s.health - 60 * e.dt),
                      speed := s.speed * 0.95,
                      aiSuggestion := .BARRIER_WARNING,
                      aiSuggestionType := .DANGER }
    if s.health ≤ 0 then crash s true else s
  else s

/-- Lines 720-722 of `animate()`: distance moved this tick accumulates
into score (floored halves) and the longitudinal odometer `carZ`. -/
noncomputable def animateProgress (s : GState) (e : TickEnv) : GState :=
  let moveZ := s.speed * 40 * e.dt
  let s := { s with score := s.score + ⌊moveZ / 2⌋ }
  { s with carZ := s.carZ + moveZ }

/-- Lines 652-736, one invocation of `animate()` in game mode.  Paused or
non-running invocations return immediately (lines 653-654); the SHOP branch
only spins the showroom car and is not modelled.  Atmosphere (line 670),
scene-graph positions, rotations, the kph/gear HUD signals (lines 716-718)
and the environment recycling loop (lines 724-731) are presentation/audio
only and omitted. -/
noncomputable def animate (s : GState) (e : TickEnv) : GState :=
  if s.isPaused then s
  else if s.gameOver then s
  else updateEntitiesCar (animateProgress (animateVehicle s e) e) e

/-- Lines 417-428, `togglePause()`: flip the `isPaused` signal, then
suspend or resume the audio context, background music and clock according
to the new value. -/
def togglePause (s : GState) : GState :=
  let p := !s.isPaused
  if p then
    { s with isPaused := p, audioSuspended := true, bgmPlaying := false,
             clockRunning := false }
  else
    { s with isPaused := p, audioSuspended := false, bgmPlaying := true,
             clockRunning := true }

/-- Lines 430-442, `buyCar(car)`: an already-unlocked car is just selected;
a locked car is bought only when the balance covers the price, deducting
exactly the price and unlocking it (the in-place `car.unlocked = true`
mutation of the shared catalog object is modelled by updating the car with
that id in the list); otherwise nothing changes.  `saveData` and
`createPlayerCar` are persistence/presentation. -/
def buyCar (s : GState) (car : CarModel) : GState :=
  if car.unlocked then
    { s with selectedCarId := car.id }
  else if car.price ≤ s.coins then
    { s with coins := s.coins - car.price,
             availableCars := s.availableCars.map fun c =>
               if c.id == car.id then { c with unlocked := true } else c,
             selectedCarId := car.id }
  else s

/-- Lines 346-383, `resetGame()`: race-start reset of the run-scoped state.
Pools, scene setup, camera and `startAudio` are modelled elsewhere or
external; the clock flush (line 361) leaves the clock running. -/
noncomputable def resetGame (s : GState) : GState :=
  { s with score := 0, speed := 0, carX := 0, carZ := 0,
           targetSteer := 0, currentSteer := 0, health := 100,
           gameOver := false, isPaused := false, difficultyLevel := 1,
           aiSuggestionType := .INFO, aiSuggestion := .SYSTEM_ONLINE,
           clockRunning := true, audioSuspended := false, bgmPlaying := true }

/-- A freshly booted component right after `initiateRaceSequence` reached
`resetGame`: default save data (no coins, catalog cars, starter selected). -/
noncomputable def initState : GState :=
  resetGame
    { gameOver := false, isPaused := false, clockRunning := true,
      audioSuspended := false, bgmPlaying := true,
      score := 0, health := 100, coins := 0, speed := 0, carX := 0, carZ := 0,
      targetSteer := 0, currentSteer := 0, driveState := .NEUTRAL,
      twoHandMode := false, virtualSteerAngle := 0, difficultyLevel := 1,
      aiSuggestion := .SYSTEM_ONLINE, aiSuggestionType := .INFO,
      availableCars := CAR_CATALOG, selectedCarId := "starter_red" }

/-- One step of the interleaved cooperative loops during a run: a
perception poll that yielded landmarks, a render/simulation tick, or the
P / Escape key (whose handler only fires while RUNNING, lines 165-169). -/
inductive GameEv where
  | poll (landmarks : List Hand)
  | tick (e : TickEnv)
  | pauseKey

/-- Dispatch one event to the component. -/
noncomputable def stepEv (s : GState) : GameEv → GState
  | .poll lms => stepPoll s lms
  | .tick e => animate s e
  | .pauseKey => if s.gameOver then s else togglePause s

/-- Run a finite interleaving of loop events. -/
noncomputable def runEvents (s : GState) (evs : List GameEv) : GState :=
  evs.foldl stepEv s

/-! Obstacle pool manager, lines 598-617 and 879-950.  This part of the
code uses only rational arithmetic, so it is modelled executably over `ℚ`.
The component-state side effects of a collision (`crash()`) are carried by
`TickEnv.obstacleHits` above; here we model the pool slots themselves. -/

/-- Obstacle kinds (line 602 and lines 929-948). -/
inductive ObstacleType where
  | NONE
  | TRAFFIC
  | WALL
  | ROCK
  deriving DecidableEq

/-- One entry of `obstaclePool` (line 602), with the mesh abstracted to its
x/z position.  `width` is `none` until first assigned at spawn, modelling
the initially-absent property read as `poolObj.width || 2.0` (line 898). -/
structure ObstacleSlot where
  active : Bool
  type : ObstacleType
  laneChangeTimer : ℚ
  speedOffset : ℚ
  targetX : ℚ
  posX : ℚ
  posZ : ℚ
  width : Option ℚ
  deriving DecidableEq

/-- Lines 598-604, `initPools()` obstacle part: `MAX_OBSTACLES` inactive
slots (group positions default to the origin).  `initThreeJS` guards
against re-entry (line 446), so this runs once. -/
def initObstaclePool : List ObstacleSlot :=
  List.replicate MAX_OBSTACLES
    { active := false, type := .NONE, laneChangeTimer := 0, speedOffset := 0,
      targetX := 0, posX := 0, posZ := 0, width := none }

/-- The `Math.random()` draws consumed by one `spawnObstacleFromPool()`
call, each in [0,1). -/
structure SpawnRolls where
  laneRoll : ℚ
  zRoll : ℚ
  timerRoll : ℚ
  speedRoll : ℚ
  typeRoll : ℚ

/-- Lines 922-949, the slot value written by `spawnObstacleFromPool()`: a
random lane far ahead and a random kind.  TRAFFIC keeps the default
collision half-width 1.5; WALL widens it to 2.5.  Mesh children are
presentation. -/
def spawnSlot (r : SpawnRolls) : ObstacleSlot :=
  let lane : ℚ := ((⌊r.laneRoll * 5⌋ : ℤ) - 2) * 4
  let zPos : ℚ := -400 - r.zRoll * 100
  let base : ObstacleSlot :=
    { active := true, type := .ROCK, laneChangeTimer := 1 + r.timerRoll,
      speedOffset := r.speedRoll * 10, targetX := lane, posX := lane,
      posZ := zPos, width := some 1.5 }
  if r.typeRoll < 0.4 then { base with type := .TRAFFIC }
  else if r.typeRoll < 0.7 then { base with type := .WALL, width := some 2.5 }
  else base

/-- Lines 919-921 and 924: claim the first free slot and write the spawned
slot into it; with no free slot the attempt returns unchanged
(back-pressure). -/
def spawnObstacleFromPool (r : SpawnRolls) (pool : List ObstacleSlot) :
    List ObstacleSlot :=
  match pool.findIdx? (fun o => !o.active) with
  | none => pool
  | some i => pool.set i (spawnSlot r)

/-- Per-tick inputs of the obstacle update loop (lines 884-904): vehicle
speed, delta time, vehicle lateral position, current difficulty, and the
random draws of traffic lane changes, indexed by slot position. -/
structure ObstacleTickEnv where
  speed : ℚ
  dt : ℚ
  carX : ℚ
  difficulty : ℚ
  laneRolls : ℕ → ℚ
  timerRolls : ℕ → ℚ

/-- Lines 884-904, the body of the obstacle update loop for the slot at
index `i`: inactive slots are skipped; TRAFFIC re-targets its lane when its
timer expires and lerps toward it; the slot advances by the relative speed;
a collision with the vehicle (the `crash()` side effect lives in
`TickEnv.obstacleHits`) or passing behind `z > 50` deactivates it. -/
def updateObstacle (e : ObstacleTickEnv) (i : ℕ) (o : ObstacleSlot) :
    ObstacleSlot :=
  if !o.active then o
  else
    let relSpeed := e.speed * 40 +
      (if o.type == .TRAFFIC then 20 + o.speedOffset else 0)
    let o :=
      if o.type == .TRAFFIC then
        let o := { o with laneChangeTimer := o.laneChangeTimer - e.dt }
        let o :=
          if o.laneChangeTimer ≤ 0 then
            { o with targetX := ((⌊e.laneRolls i * 5⌋ : ℤ) - 2) * 4,
                     laneChangeTimer := (2 + e.timerRolls i * 3) / (e.difficulty * 0.5) }
          else o
        { o with posX := o.posX + (o.targetX - o.posX) * 3 * e.dt }
      else o
    let o := { o with posZ := o.posZ + relSpeed * e.dt }
    let hitDistX : ℚ :=
      match o.width with | none => 2.0 | some w => if w = 0 then 2.0 else w
    let o :=
      if |o.posZ| < (2.5 : ℚ) ∧ |o.posX - e.carX| < hitDistX then
        { o with active := false }
      else o
    if o.posZ > (50 : ℚ) then { o with active := false } else o

/-- The obstacle loop over the whole pool, threading the slot index for the
random draws. -/
def updateObstacles (e : ObstacleTickEnv) : ℕ → List ObstacleSlot → List ObstacleSlot
  | _, [] => []
  | i, o :: rest => updateObstacle e i o :: updateObstacles e (i + 1) rest

/-- One pool-affecting operation: a spawn attempt (line 881 triggers it
probabilistically; we consider arbitrary attempt sequences) or one pass of
the obstacle update loop. -/
inductive PoolOp where
  | spawn (r : SpawnRolls)
  | tick (e : ObstacleTickEnv)

/-- Apply one pool operation. -/
def runPoolOp (pool : List ObstacleSlot) : PoolOp → List ObstacleSlot
  | .spawn r => spawnObstacleFromPool r pool
  | .tick e => updateObstacles e 0 pool

/-- Apply a sequence of pool operations. -/
def runPoolOps (pool : List ObstacleSlot) (ops : List PoolOp) : List ObstacleSlot :=
  ops.foldl runPoolOp pool

/-- Number of active obstacles in the pool. -/
def activeObstacleCount (pool : List ObstacleSlot) : ℕ :=
  pool.countP (·.active)

/-! Helper lemmas about the pool manager. -/

lemma length_updateObstacles (e : ObstacleTickEnv) :
    ∀ (i : ℕ) (pool : List ObstacleSlot),
      (updateObstacles e i pool).length = pool.length
  | _, [] => rfl
  | i, o :: rest => by
      simp only [updateObstacles, List.length_cons,
        length_updateObstacles e (i + 1) rest]

lemma length_runPoolOp (pool : List ObstacleSlot) (op : PoolOp) :
    (runPoolOp pool op).length = pool.length := by
  cases op with
  | spawn r =>
      simp only [runPoolOp, spawnObstacleFromPool]
      cases h : pool.findIdx? (fun o => !o.active) with
      | none => rfl
      | some i => simp [List.length_set]
  | tick e => exact length_updateObstacles e 0 pool

lemma length_runPoolOps (ops : List PoolOp) :
    ∀ pool : List ObstacleSlot, (runPoolOps pool ops).length = pool.length := by
  induction ops with
  | nil => intro pool; rfl
  | cons op rest ih =>
      intro pool
      have h1 : runPoolOps pool (op :: rest) = runPoolOps (runPoolOp pool op) rest := rfl
      rw [h1, ih, length_runPoolOp]

/-- C2.  After any finite sequence of spawn attempts and obstacle-update
ticks starting from the freshly initialized pool, the number of active
slots never exceeds `MAX_OBSTACLES` (the pool has fixed length
`MAX_OBSTACLES` and a spawn only ever claims an existing free slot), and a
spawn attempt on a pool with no free slot returns the pool unchanged. -/
theorem obstacle_pool_bound (ops : List PoolOp) (r : SpawnRolls) :
    activeObstacleCount (runPoolOps initObstaclePool ops) ≤ MAX_OBSTACLES ∧
    ((runPoolOps initObstaclePool ops).all (fun o => o.active) →
      spawnObstacleFromPool r (runPoolOps initObstaclePool ops) =
        runPoolOps initObstaclePool ops) := by
  constructor
  · calc activeObstacleCount (runPoolOps initObstaclePool ops)
        ≤ (runPoolOps initObstaclePool ops).length := List.countP_le_length _
      _ = initObstaclePool.length := length_runPoolOps ops initObstaclePool
      _ = MAX_OBSTACLES := by simp [initObstaclePool]
  · intro hall
    unfold spawnObstacleFromPool
    have hnone : (runPoolOps initObstaclePool ops).findIdx?
        (fun o => !o.active) = none := by
      rw [List.findIdx?_eq_none_iff]
      intro x hx
      rw [List.all_eq_true] at hall
      simp [hall x hx]
    rw [hnone]

/-- Spawn rolls used by the witness run (`typeRoll = 1` selects ROCK). -/
def fullRolls : SpawnRolls :=
  { laneRoll := 0, zRoll := 0, timerRoll := 0, speedRoll := 0, typeRoll := 1 }

/-- Forty consecutive spawn attempts: enough to fill the pool. -/
def fortySpawns : List PoolOp := List.replicate 40 (.spawn fullRolls)

/-- Number of free slots in the pool. -/
def inactiveObstacleCount (pool : List ObstacleSlot) : ℕ :=
  pool.countP (fun o => !o.active)

lemma countP_set {α : Type} (p : α → Bool) :
    ∀ (l : List α) (i : ℕ) (a : α) (h : i < l.length),
      (l.set i a).countP p + (if p l[i] then 1 else 0) =
        l.countP p + (if p a then 1 else 0)
  | [], i, a, h => by simp at h
  | x :: xs, 0, a, h => by
      simp only [List.set_cons_zero, List.countP_cons, List.getElem_cons_zero]
      omega
  | x :: xs, i + 1, a, h => by
      simp only [List.set_cons_succ, List.countP_cons, List.getElem_cons_succ]
      have := countP_set p xs i a (by simpa using h)
      omega

lemma spawnSlot_active (r : SpawnRolls) : (spawnSlot r).active = true := by
  unfold spawnSlot
  split
  · rfl
  · split <;> rfl

lemma inactiveObstacleCount_spawn (r : SpawnRolls) (pool : List ObstacleSlot) :
    inactiveObstacleCount (spawnObstacleFromPool r pool) =
      inactiveObstacleCount pool - 1 := by
  unfold spawnObstacleFromPool inactiveObstacleCount
  cases hf : pool.findIdx? (fun o => !o.active) with
  | none =>
      dsimp only
      rw [List.findIdx?_eq_none_iff] at hf
      have h0 : pool.countP (fun o => !o.active) = 0 := by
        rw [List.countP_eq_zero]
        intro a ha
        simp [hf a ha]
      omega
  | some i =>
      dsimp only
      rw [List.findIdx?_eq_some_iff_getElem] at hf
      obtain ⟨hlt, hp, -⟩ := hf
      have hkey := countP_set (fun o => !o.active) pool i (spawnSlot r) hlt
      simp [hp, spawnSlot_active] at hkey
      omega

lemma inactive_after_spawns (r : SpawnRolls) :
    ∀ (n : ℕ) (pool : List ObstacleSlot),
      inactiveObstacleCount
          (runPoolOps pool (List.replicate n (PoolOp.spawn r))) =
        inactiveObstacleCount pool - n
  | 0, pool => by simp [runPoolOps]
  | n + 1, pool => by
      have hrep : List.replicate (n + 1) (PoolOp.spawn r) =
          PoolOp.spawn r :: List.replicate n (PoolOp.spawn r) := rfl
      have hstep : runPoolOps pool (List.replicate (n + 1) (PoolOp.spawn r)) =
          runPoolOps (spawnObstacleFromPool r pool)
            (List.replicate n (PoolOp.spawn r)) := by
        rw [hrep]; rfl
      rw [hstep, inactive_after_spawns r n, inactiveObstacleCount_spawn]
      omega

lemma fortySpawns_full :
    (runPoolOps initObstaclePool fortySpawns).all (fun o => o.active) = true := by
  have hcount : inactiveObstacleCount (runPoolOps initObstaclePool fortySpawns) = 0 := by
    have := inactive_after_spawns fullRolls 40 initObstaclePool
    have hinit : inactiveObstacleCount initObstaclePool = 40 := by
      simp [inactiveObstacleCount, initObstaclePool, List.countP_replicate,
        MAX_OBSTACLES]
    rw [show fortySpawns = List.replicate 40 (PoolOp.spawn fullRolls) from rfl]
    rw [this, hinit]
  unfold inactiveObstacleCount at hcount
  rw [List.countP_eq_zero] at hcount
  rw [List.all_eq_true]
  intro x hx
  have := hcount x hx
  simpa using this

/-- Witness for C2: after forty spawns the pool is saturated, the bound
holds and the forty-first spawn attempt is a no-op. -/
theorem obstacle_pool_bound_witness :
    activeObstacleCount (runPoolOps initObstaclePool fortySpawns) ≤ MAX_OBSTACLES ∧
    spawnObstacleFromPool fullRolls (runPoolOps initObstaclePool fortySpawns) =
      runPoolOps initObstaclePool fortySpawns :=
  ⟨(obstacle_pool_bound fortySpawns fullRolls).1,
   (obstacle_pool_bound fortySpawns fullRolls).2 fortySpawns_full⟩

/-- C9, counterexample.  The only pause operation the running game exposes
(the P / Escape key path, lines 165-169) is `togglePause`, and it is a
toggle, not idempotent: from the freshly reset running state, invoking it
twice yields a different paused/unpaused state than invoking it once. -/
theorem togglePause_twice_ne_once :
    (togglePause (togglePause initState)).isPaused ≠ (togglePause initState).isPaused :=
  fun h => Bool.noConfusion h

/-- C9, amended.  `togglePause` is an involution on running states: from
any state that is running with its clock and audio in the matching
configuration, invoking it twice restores the state exactly, while a
single invocation pauses (so "twice = once" fails, but "twice = zero
times" holds). -/
theorem togglePause_involution (s : GState)
    (hp : s.isPaused = false) (hc : s.clockRunning = true)
    (ha : s.audioSuspended = false) (hb : s.bgmPlaying = true) :
    togglePause (togglePause s) = s ∧ (togglePause s).isPaused = true := by
  constructor
  · cases s
    simp_all [togglePause]
  · simp [togglePause, hp]

/-- Witness for the amended C9 at the freshly reset state. -/
theorem togglePause_involution_witness :
    togglePause (togglePause initState) = initState ∧
      (togglePause initState).isPaused = true :=
  togglePause_involution initState rfl rfl rfl rfl

/-- C10.  `buyCar` never drives the balance negative: on a locked car it
either leaves the state completely unchanged (balance below price) or
deducts exactly the price (balance at least the price, leaving a
nonnegative balance); from any nonnegative balance the result is
nonnegative in every branch; and every catalog price is nonnegative. -/
theorem buyCar_no_negative (s : GState) (car : CarModel) :
    (car.unlocked = false → s.coins < car.price → buyCar s car = s) ∧
    (car.unlocked = false → car.price ≤ s.coins →
      (buyCar s car).coins = s.coins - car.price ∧
      (buyCar s car).selectedCarId = car.id) ∧
    (0 ≤ s.coins → 0 ≤ (buyCar s car).coins) ∧
    (∀ c ∈ CAR_CATALOG, 0 ≤ c.price) := by
  refine ⟨?_, ?_, ?_, ?_⟩
  · intro hl hlt
    simp [buyCar, hl, not_le.mpr hlt]
  · intro hl hle
    simp [buyCar, hl, hle]
  · intro h0
    by_cases h1 : car.unlocked
    · simp [buyCar, h1]
      exact h0
    · by_cases h2 : car.price ≤ s.coins
      · simp only [buyCar, h1, if_false, h2, if_true, Bool.false_eq_true]
        omega
      · simp [buyCar, h1, h2]
        exact h0
  · intro c hc
    simp only [CAR_CATALOG, starterCar, List.mem_cons, List.not_mem_nil,
      or_false] at hc
    rcases hc with rfl | rfl | rfl | rfl <;> norm_num

/-- Witness for C10: buying the locked 500-coin sedan with an empty wallet
changes nothing. -/
theorem buyCar_no_negative_witness :
    buyCar initState
      { id := "sedan_blue", name := "MSIT Cruiser", price := 500, color := 0x2563eb,
        speedMult := 1.1, handlingMult := 0.9, unlocked := false } = initState :=
  (buyCar_no_negative initState _).1 rfl (by norm_num [initState, resetGame])

/-! Helper lemmas about the steer post-processing chain. -/

lemma abs_clamp1_le_one (x : ℝ) : |clamp1 x| ≤ 1 := by
  unfold clamp1
  rw [abs_le]
  exact ⟨le_max_left _ _, max_le (by norm_num) (min_le_left _ _)⟩

lemma powCurve_zero : powCurve 0 = 0 := by
  unfold powCurve jsSign
  norm_num

lemma abs_jsSign_le_one (x : ℝ) : |jsSign x| ≤ 1 := by
  unfold jsSign
  split_ifs <;> norm_num

lemma abs_powCurve_le_one (x : ℝ) (h : |x| ≤ 1) : |powCurve x| ≤ 1 := by
  unfold powCurve
  rw [abs_mul]
  have h1 : |x| ^ (1.5 : ℝ) ≤ 1 := Real.rpow_le_one (abs_nonneg x) h (by norm_num)
  have h2 : (0 : ℝ) ≤ |x| ^ (1.5 : ℝ) := Real.rpow_nonneg (abs_nonneg x) _
  have h3 := abs_jsSign_le_one x
  have h4 := abs_nonneg (jsSign x)
  rw [abs_of_nonneg h2]
  nlinarith

lemma applySteerBlend_abs (s : GState) (raw : ℝ) (ds : DriveState) (t : ℝ)
    (hts : s.targetSteer = t) (h : |t| ≤ 1) :
    |(applySteerBlend s raw ds).targetSteer| ≤ 1 := by
  subst hts
  have hb : |powCurve (clamp1 raw)| ≤ 1 :=
    abs_powCurve_le_one _ (abs_clamp1_le_one raw)
  show |s.targetSteer * 0.7 + powCurve (clamp1 raw) * 0.3| ≤ 1
  calc |s.targetSteer * 0.7 + powCurve (clamp1 raw) * 0.3|
      ≤ |s.targetSteer * 0.7| + |powCurve (clamp1 raw) * 0.3| := abs_add _ _
    _ = |s.targetSteer| * |(0.7 : ℝ)| + |powCurve (clamp1 raw)| * |(0.3 : ℝ)| := by
        rw [abs_mul, abs_mul]
    _ ≤ 1 := by
        rw [abs_of_pos (show (0:ℝ) < 0.7 by norm_num),
            abs_of_pos (show (0:ℝ) < 0.3 by norm_num)]
        nlinarith [abs_nonneg s.targetSteer, abs_nonneg (powCurve (clamp1 raw))]

lemma stepPoll_targetSteer_le (s : GState) (lms : List Hand)
    (h : |s.targetSteer| ≤ 1) : |(stepPoll s lms).targetSteer| ≤ 1 := by
  unfold stepPoll
  split
  · exact h
  · rcases lms with _ | ⟨h1, _ | ⟨h2, _ | ⟨h3, rest⟩⟩⟩
    · simp only [processHands]
      exact applySteerBlend_abs _ _ _ _ rfl h
    · cases hx0 : h1[0]? <;> cases hx9 : h1[9]? <;> cases hx8 : h1[8]? <;>
        cases hx12 : h1[12]? <;> cases hx16 : h1[16]? <;> cases hx20 : h1[20]? <;>
          simp only [processHands, hx0, hx9, hx8, hx12, hx16, hx20] <;>
            first
              | exact h
              | exact applySteerBlend_abs _ _ _ _ rfl h
    · cases hx1 : h1[9]? <;> cases hx2 : h2[9]? <;>
        simp only [processHands, hx1, hx2] <;>
          first
            | exact h
            | exact applySteerBlend_abs _ _ _ _ rfl h
    · simp only [processHands]
      exact applySteerBlend_abs _ _ _ _ rfl h

/-- C3.  Starting from the reset value `targetSteer = 0`, any finite
sequence of perception polls (each an arbitrary list of hand observations,
including malformed ones whose processing throws) keeps the stored
`targetSteer` inside [-1, 1]: the raw steer is clamped, the signed power
curve maps [-1,1] into itself, and the 0.7/0.3 moving average preserves
the interval. -/
theorem targetSteer_always_clamped (s0 : GState) (polls : List (List Hand)) :
    -1 ≤ (List.foldl stepPoll (resetGame s0) polls).targetSteer ∧
      (List.foldl stepPoll (resetGame s0) polls).targetSteer ≤ 1 := by
  have key : ∀ (ps : List (List Hand)) (s : GState), |s.targetSteer| ≤ 1 →
      |(List.foldl stepPoll s ps).targetSteer| ≤ 1 := by
    intro ps
    induction ps with
    | nil => exact fun s hs => hs
    | cons p rest ih => exact fun s hs => ih _ (stepPoll_targetSteer_le s p hs)
  have h0 : |(resetGame s0).targetSteer| ≤ 1 := by
    norm_num [resetGame]
  have := key polls (resetGame s0) h0
  rwa [abs_le] at this

/-- C5.  One-hand joystick mode: inside the dead zone
(`|dx| < 0.03`) the raw steer is exactly 0 and the whole poll contributes
zero steering to the blend (the new `targetSteer` is exactly 0.7 times the
old one); at or above the threshold the raw steer is `dx * -8.0`. -/
theorem one_hand_dead_zone (s : GState) (hand : Hand)
    (wrist middleKnuckle t8 t12 t16 t20 : Landmark)
    (hg0 : hand[0]? = some wrist) (hg9 : hand[9]? = some middleKnuckle)
    (hg8 : hand[8]? = some t8) (hg12 : hand[12]? = some t12)
    (hg16 : hand[16]? = some t16) (hg20 : hand[20]? = some t20) :
    (|middleKnuckle.x - wrist.x| < 0.03 →
      oneHandSteer wrist middleKnuckle = 0 ∧
      ∃ r, processHands s [hand] = Except.ok r ∧
        r.targetSteer = s.targetSteer * 0.7) ∧
    (0.03 ≤ |middleKnuckle.x - wrist.x| →
      oneHandSteer wrist middleKnuckle = (middleKnuckle.x - wrist.x) * (-8.0)) := by
  constructor
  · intro hdz
    have hraw : oneHandSteer wrist middleKnuckle = 0 := by
      unfold oneHandSteer
      rw [if_pos hdz]
    refine ⟨hraw, ?_⟩
    have hok : processHands s [hand] = Except.ok
        (applySteerBlend { s with twoHandMode := false }
          (oneHandSteer wrist middleKnuckle)
          (oneHandDrive wrist t8 t12 t16 t20)) := by
      simp only [processHands, hg0, hg9, hg8, hg12, hg16, hg20]
    refine ⟨_, hok, ?_⟩
    show (applySteerBlend _ (oneHandSteer wrist middleKnuckle) _).targetSteer = _
    rw [hraw]
    show s.targetSteer * 0.7 + powCurve (clamp1 0) * 0.3 = s.targetSteer * 0.7
    have hc : clamp1 0 = 0 := by unfold clamp1; norm_num
    rw [hc, powCurve_zero]
    ring
  · intro hout
    unfold oneHandSteer
    rw [if_neg (not_lt.mpr hout)]

/-- A full 21-point hand with every landmark at the image center: its
joystick offset dx is exactly 0, inside the dead zone. -/
noncomputable def centerHand : Hand :=
  [⟨0.5, 0.5⟩, ⟨0.5, 0.5⟩, ⟨0.5, 0.5⟩, ⟨0.5, 0.5⟩, ⟨0.5, 0.5⟩, ⟨0.5, 0.5⟩,
   ⟨0.5, 0.5⟩, ⟨0.5, 0.5⟩, ⟨0.5, 0.5⟩, ⟨0.5, 0.5⟩, ⟨0.5, 0.5⟩, ⟨0.5, 0.5⟩,
   ⟨0.5, 0.5⟩, ⟨0.5, 0.5⟩, ⟨0.5, 0.5⟩, ⟨0.5, 0.5⟩, ⟨0.5, 0.5⟩, ⟨0.5, 0.5⟩,
   ⟨0.5, 0.5⟩, ⟨0.5, 0.5⟩, ⟨0.5, 0.5⟩]

/-- A full 21-point hand whose middle knuckle sits 0.1 to the right of the
wrist: outside the dead zone. -/
noncomputable def offsetHand : Hand :=
  [⟨0.5, 0.5⟩, ⟨0.5, 0.5⟩, ⟨0.5, 0.5⟩, ⟨0.5, 0.5⟩, ⟨0.5, 0.5⟩, ⟨0.5, 0.5⟩,
   ⟨0.5, 0.5⟩, ⟨0.5, 0.5⟩, ⟨0.5, 0.5⟩, ⟨0.6, 0.5⟩, ⟨0.5, 0.5⟩, ⟨0.5, 0.5⟩,
   ⟨0.5, 0.5⟩, ⟨0.5, 0.5⟩, ⟨0.5, 0.5⟩, ⟨0.5, 0.5⟩, ⟨0.5, 0.5⟩, ⟨0.5, 0.5⟩,
   ⟨0.5, 0.5⟩, ⟨0.5, 0.5⟩, ⟨0.5, 0.5⟩]

/-- Witness for C5: the centered hand is in the dead zone and steers
exactly 0; the offset hand is outside it and steers dx times -8. -/
theorem one_hand_dead_zone_witness :
    oneHandSteer ⟨0.5, 0.5⟩ ⟨0.5, 0.5⟩ = 0 ∧
      oneHandSteer ⟨0.5, 0.5⟩ ⟨0.6, 0.5⟩ =
        ((⟨0.6, 0.5⟩ : Landmark).x - (⟨0.5, 0.5⟩ : Landmark).x) * (-8.0) :=
  ⟨((one_hand_dead_zone initState centerHand _ _ _ _ _ _
      rfl rfl rfl rfl rfl rfl).1 (by norm_num [centerHand])).1,
   (one_hand_dead_zone initState offsetHand _ _ _ _ _ _
      rfl rfl rfl rfl rfl rfl).2 (by
        have h : offsetHand[9].x - offsetHand[0].x = (0.1 : ℝ) := by
          norm_num [offsetHand]
        rw [h, show |(0.1 : ℝ)| = 0.1 from by norm_num]
        norm_num)⟩

/-- C6.  Two-hand wheel mode: whenever a two-hand poll completes it stores
GAS unconditionally; the raw steer is `atan2(right.y-left.y,
right.x-left.x) * -3.0` with left/right chosen by x-coordinate; with the
left hand at y = 0.6 and the right at y = 0.4 the raw steer is strictly
positive, and swapping the two y-values makes it strictly negative. -/
theorem two_hand_gas_and_sign :
    (∀ (s : GState) (h1 h2 : Hand) (r : GState),
        processHands s [h1, h2] = Except.ok r → r.driveState = DriveState.GAS) ∧
    (∀ (s : GState) (h1 h2 : Hand) (a b : Landmark),
        h1[9]? = some a → h2[9]? = some b →
        processHands s [h1, h2] = Except.ok (applySteerBlend
          { s with twoHandMode := true,
                   virtualSteerAngle := twoHandAngle a b * (180 / Real.pi) }
          (twoHandSteer a b) DriveState.GAS)) ∧
    (∀ a b : Landmark, a.x < b.x → a.y = 0.6 → b.y = 0.4 →
        0 < twoHandSteer a b) ∧
    (∀ a b : Landmark, a.x < b.x → a.y = 0.4 → b.y = 0.6 →
        twoHandSteer a b < 0) := by
  have hsign : ∀ a b : Landmark, a.x < b.x → b.y - a.y < 0 →
      0 < twoHandSteer a b := by
    intro a b hab hy
    unfold twoHandSteer twoHandAngle atan2
    rw [if_pos hab, if_pos hab]
    dsimp only
    rw [if_pos (sub_pos.mpr hab)]
    have harg : (b.y - a.y) / (b.x - a.x) < 0 :=
      div_neg_of_neg_of_pos hy (sub_pos.mpr hab)
    have harct : Real.arctan ((b.y - a.y) / (b.x - a.x)) < 0 := by
      have := Real.arctan_strictMono harg
      rwa [Real.arctan_zero] at this
    nlinarith
  have hsign2 : ∀ a b : Landmark, a.x < b.x → 0 < b.y - a.y →
      twoHandSteer a b < 0 := by
    intro a b hab hy
    unfold twoHandSteer twoHandAngle atan2
    rw [if_pos hab, if_pos hab]
    dsimp only
    rw [if_pos (sub_pos.mpr hab)]
    have harg : 0 < (b.y - a.y) / (b.x - a.x) :=
      div_pos hy (sub_pos.mpr hab)
    have harct : 0 < Real.arctan ((b.y - a.y) / (b.x - a.x)) := by
      have := Real.arctan_strictMono harg
      rwa [Real.arctan_zero] at this
    nlinarith
  refine ⟨?_, ?_, ?_, ?_⟩
  · intro s h1 h2 r hr
    cases hx1 : h1[9]? with
    | none => simp [processHands, hx1] at hr
    | some a =>
        cases hx2 : h2[9]? with
        | none => simp [processHands, hx1, hx2] at hr
        | some b =>
            simp only [processHands, hx1, hx2, Except.ok.injEq] at hr
            rw [← hr]
            rfl
  · intro s h1 h2 a b hx1 hx2
    simp only [processHands, hx1, hx2]
  · intro a b hab hay hby
    exact hsign a b hab (by rw [hay, hby]; norm_num)
  · intro a b hab hay hby
    exact hsign2 a b hab (by rw [hay, hby]; norm_num)

/-- Witness for C6: concrete hands at x = 0.1 and x = 0.9; with the left
hand lower on screen (y = 0.6) the steer is positive, and with the
y-values swapped it is negative. -/
theorem two_hand_gas_and_sign_witness :
    0 < twoHandSteer ⟨0.1, 0.6⟩ ⟨0.9, 0.4⟩ ∧
      twoHandSteer ⟨0.1, 0.4⟩ ⟨0.9, 0.6⟩ < 0 :=
  ⟨two_hand_gas_and_sign.2.2.1 _ _ (by norm_num) rfl rfl,
   two_hand_gas_and_sign.2.2.2 _ _ (by norm_num) rfl rfl⟩

/-- A malformed hand observation: a single landmark instead of 21. -/
noncomputable def malformedHand : Hand := [⟨0.5, 0.5⟩]

/-- C1, counterexample.  `processHands` contains no landmark-count
validation: feeding it one hand with a single landmark makes the
`middleKnuckle.x` access throw (modelled as `Except.error`), so the
observation is not handled like the zero-hands case — the claimed
"reject as if zero hands, no exception" behavior does not exist. -/
theorem processHands_malformed_throws :
    (processHands initState [malformedHand]).isOk = false ∧
    processHands initState [malformedHand] ≠ processHands initState [] := by
  refine ⟨rfl, ?_⟩
  intro hcontra
  have h2 := congrArg Except.isOk hcontra
  rw [show (processHands initState [malformedHand]).isOk = false from rfl,
      show (processHands initState []).isOk = true from rfl] at h2
  exact Bool.noConfusion h2

/-- C1, amended.  A one-hand observation with fewer than 21 landmarks is
not validated away: its processing throws a TypeError at the landmark
access.  Because the throw happens before any write to `targetSteer` or
`currentDriveState`, the persistent control signal is indeed not
corrupted (only the `isTwoHandMode` presentation signal was already
updated), but the exception does propagate. -/
theorem malformed_one_hand_throws (s : GState) (hand : Hand)
    (hlen : hand.length < 21) :
    processHands s [hand] = Except.error { s with twoHandMode := false } := by
  have h20 : hand[20]? = none := List.getElem?_eq_none (by omega)
  unfold processHands
  cases hx0 : hand[0]? <;> cases hx9 : hand[9]? <;> cases hx8 : hand[8]? <;>
    cases hx12 : hand[12]? <;> cases hx16 : hand[16]? <;>
      simp [hx0, hx9, hx8, hx12, hx16, h20]

/-- Witness for the amended C1 at the concrete single-landmark hand. -/
theorem malformed_one_hand_throws_witness :
    malformedHand.length < 21 ∧
    processHands initState [malformedHand] =
      Except.error { initState with twoHandMode := false } :=
  ⟨by simp [malformedHand],
   malformed_one_hand_throws initState malformedHand (by simp [malformedHand])⟩

/-! Evaluation lemmas for concrete runs of the game loop. -/

/-- A full 21-point hand held as a closed fist at the image center, with
the middle knuckle 0.125 to the left of the wrist: raw steer 1, fist
closed (BRAKING). -/
noncomputable def fistHand : Hand :=
  [⟨0.5, 0.5⟩, ⟨0.5, 0.5⟩, ⟨0.5, 0.5⟩, ⟨0.5, 0.5⟩, ⟨0.5, 0.5⟩, ⟨0.5, 0.5⟩,
   ⟨0.5, 0.5⟩, ⟨0.5, 0.5⟩, ⟨0.5, 0.5⟩, ⟨0.375, 0.5⟩, ⟨0.5, 0.5⟩, ⟨0.5, 0.5⟩,
   ⟨0.5, 0.5⟩, ⟨0.5, 0.5⟩, ⟨0.5, 0.5⟩, ⟨0.5, 0.5⟩, ⟨0.5, 0.5⟩, ⟨0.5, 0.5⟩,
   ⟨0.5, 0.5⟩, ⟨0.5, 0.5⟩, ⟨0.5, 0.5⟩]

lemma oneHandSteer_fist :
    oneHandSteer ⟨0.5, 0.5⟩ ⟨0.375, 0.5⟩ = 1 := by
  simp only [oneHandSteer]
  have h : |(0.375 : ℝ) - 0.5| = 0.125 := by norm_num
  rw [h]
  norm_num

lemma oneHandDrive_fist :
    oneHandDrive ⟨0.5, 0.5⟩ ⟨0.5, 0.5⟩ ⟨0.5, 0.5⟩ ⟨0.5, 0.5⟩ ⟨0.5, 0.5⟩ =
      DriveState.BRAKING := by
  have hz : oneHandAvgDist ⟨0.5, 0.5⟩ ⟨0.5, 0.5⟩ ⟨0.5, 0.5⟩ ⟨0.5, 0.5⟩
      ⟨0.5, 0.5⟩ = 0 := by
    simp only [oneHandAvgDist, hypot]
    norm_num
  simp only [oneHandDrive, hz]
  norm_num

lemma powCurve_one : powCurve (clamp1 1) = 1 := by
  have hc : clamp1 1 = 1 := by unfold clamp1; norm_num
  rw [hc]
  unfold powCurve jsSign
  rw [abs_one, Real.one_rpow]
  norm_num

/-- One perception poll with the fist hand described above: steer 1 into
the blend, drive state BRAKING. -/
lemma stepPoll_fist (s : GState) (hg : s.gameOver = false) :
    stepPoll s [fistHand] =
      { s with twoHandMode := false,
               targetSteer := s.targetSteer * 0.7 + 0.3,
               driveState := DriveState.BRAKING } := by
  have hproc : processHands s [fistHand] = Except.ok
      (applySteerBlend { s with twoHandMode := false } 1 DriveState.BRAKING) := by
    simp only [processHands, fistHand, List.getElem?_cons_zero,
      List.getElem?_cons_succ, oneHandSteer_fist, oneHandDrive_fist]
  simp only [stepPoll, hg, Bool.false_eq_true, if_false, hproc]
  simp only [applySteerBlend, powCurve_one]
  norm_num

lemma currentCarOf_starter (s : GState) (hcars : s.availableCars = CAR_CATALOG)
    (hsel : s.selectedCarId = "starter_red") : currentCarOf s = starterCar := by
  rw [currentCarOf, hcars, hsel]
  rfl

lemma difficultyOf_zero : difficultyOf 0 = 1 := by
  unfold difficultyOf
  norm_num

/-- With no obstacle collision and no coin pickup this tick,
`updateEntities` leaves the component state unchanged. -/
lemma updateEntitiesCar_noop (s : GState) (e : TickEnv)
    (hhits : e.obstacleHits = 0) (hcoins : e.coinsTaken = 0) :
    updateEntitiesCar s e = s := by
  unfold updateEntitiesCar
  rw [hhits, hcoins]
  simp

/-- With zero speed the progress step changes nothing. -/
lemma animateProgress_zero_speed (s : GState) (e : TickEnv)
    (hsp : s.speed = 0) : animateProgress s e = s := by
  cases s
  dsimp only at hsp
  subst hsp
  simp only [animateProgress]
  norm_num

/-- One render tick while braking at standstill with the starter car and
score 0, ending inside the barrier limit: only the difficulty level,
steering filter and lateral position change. -/
lemma animate_brake_safe (s : GState) (e : TickEnv)
    (hp : s.isPaused = false) (hg : s.gameOver = false)
    (hds : s.driveState = DriveState.BRAKING) (hsp : s.speed = 0)
    (hsc : s.score = 0)
    (hcars : s.availableCars = CAR_CATALOG) (hsel : s.selectedCarId = "starter_red")
    (hhits : e.obstacleHits = 0) (hcoins : e.coinsTaken = 0) (hdt : 0 < e.dt)
    (hsafe : |s.carX + (s.currentSteer +
        (s.targetSteer - s.currentSteer) * 0.1) * 7 * e.dt| ≤ 8.5) :
    animate s e =
      { s with difficultyLevel := 2, speed := 0,
               currentSteer := s.currentSteer +
                 (s.targetSteer - s.currentSteer) * 0.1,
               carX := s.carX + (s.currentSteer +
                 (s.targetSteer - s.currentSteer) * 0.1) * 7 * e.dt } := by
  have hcar := currentCarOf_starter s hcars hsel
  have habs := abs_le.mp hsafe
  have hAV : animateVehicle s e =
      { s with difficultyLevel := 2, speed := 0,
               currentSteer := s.currentSteer +
                 (s.targetSteer - s.currentSteer) * 0.1,
               carX := s.carX + (s.currentSteer +
                 (s.targetSteer - s.currentSteer) * 0.1) * 7 * e.dt } := by
    simp only [animateVehicle, hcar, hsc, difficultyOf_zero, hds, hsp,
      LERP_FACTOR, SIDE_BARRIER_X, starterCar, speedStep]
    rw [if_pos (by nlinarith : (0:ℝ) - 12.0 * e.dt < 0), zero_div,
      show ((0.5:ℝ) ⊔ (0:ℝ)) = 0.5 from max_eq_left (by norm_num)]
    rw [if_neg (by push_neg; constructor <;> nlinarith)]
    ext <;> norm_num
  rw [animate, if_neg (by simp [hp]), if_neg (by simp [hg]), hAV,
    animateProgress_zero_speed _ _ rfl, updateEntitiesCar_noop _ _ hhits hcoins]

/-- One render tick while braking at standstill with the starter car and
score 0, ending beyond the barrier limit but with enough health to
survive the drain: the barrier penalty fires (health drain, damped speed,
warning advisory) and the lateral position keeps its out-of-band value —
nothing clamps it. -/
lemma animate_brake_penalty (s : GState) (e : TickEnv)
    (hp : s.isPaused = false) (hg : s.gameOver = false)
    (hds : s.driveState = DriveState.BRAKING) (hsp : s.speed = 0)
    (hsc : s.score = 0)
    (hcars : s.availableCars = CAR_CATALOG) (hsel : s.selectedCarId = "starter_red")
    (hhits : e.obstacleHits = 0) (hcoins : e.coinsTaken = 0) (hdt : 0 < e.dt)
    (hpen : 8.5 < |s.carX + (s.currentSteer +
        (s.targetSteer - s.currentSteer) * 0.1) * 7 * e.dt|)
    (hsurv : 0 < s.health - 60 * e.dt) :
    animate s e =
      { s with difficultyLevel := 2, speed := 0,
               currentSteer := s.currentSteer +
                 (s.targetSteer - s.currentSteer) * 0.1,
               carX := s.carX + (s.currentSteer +
                 (s.targetSteer - s.currentSteer) * 0.1) * 7 * e.dt,
               health := s.health - 60 * e.dt,
               aiSuggestion := AiMsg.BARRIER_WARNING,
               aiSuggestionType := AiMsgType.DANGER } := by
  have hcar := currentCarOf_starter s hcars hsel
  have hAV : animateVehicle s e =
      { s with difficultyLevel := 2, speed := 0,
               currentSteer := s.currentSteer +
                 (s.targetSteer - s.currentSteer) * 0.1,
               carX := s.carX + (s.currentSteer +
                 (s.targetSteer - s.currentSteer) * 0.1) * 7 * e.dt,
               health := s.health - 60 * e.dt,
               aiSuggestion := AiMsg.BARRIER_WARNING,
               aiSuggestionType := AiMsgType.DANGER } := by
    simp only [animateVehicle, hcar, hsc, difficultyOf_zero, hds, hsp,
      LERP_FACTOR, SIDE_BARRIER_X, starterCar, speedStep]
    rw [if_pos (by nlinarith : (0:ℝ) - 12.0 * e.dt < 0), zero_div,
      show ((0.5:ℝ) ⊔ (0:ℝ)) = 0.5 from max_eq_left (by norm_num)]
    rw [if_pos (by rcases lt_abs.mp hpen with h | h
                   · left; nlinarith
                   · right; nlinarith)]
    rw [show ((0:ℝ) ⊔ (s.health - 60 * e.dt)) = s.health - 60 * e.dt from
      max_eq_right (le_of_lt hsurv)]
    rw [if_neg (not_le.mpr hsurv)]
    ext <;> norm_num
  rw [animate, if_neg (by simp [hp]), if_neg (by simp [hg]), hAV,
    animateProgress_zero_speed _ _ rfl, updateEntitiesCar_noop _ _ hhits hcoins]

/-- A mid-race component state: the run-scoped fields that the drift run
below varies, over the default save data. -/
noncomputable def raceSt (t c x health : ℝ) (ds : DriveState) (lvl : ℤ)
    (msg : AiMsg) (mty : AiMsgType) : GState :=
  { gameOver := false, isPaused := false, clockRunning := true,
    audioSuspended := false, bgmPlaying := true, score := 0, health := health,
    coins := 0, speed := 0, carX := x, carZ := 0, targetSteer := t,
    currentSteer := c, driveState := ds, twoHandMode := false,
    virtualSteerAngle := 0, difficultyLevel := lvl, aiSuggestion := msg,
    aiSuggestionType := mty, availableCars := CAR_CATALOG,
    selectedCarId := "starter_red" }

/-- A realizable interleaving of the two loops from a fresh race: ten
perception polls of a steering fist, then four one-second render ticks and
four half-second render ticks (the variable-timestep loop takes whatever
delta the clock reports), with no obstacle collisions or coin pickups. -/
noncomputable def driftRun : List GameEv :=
  [.poll [fistHand], .poll [fistHand], .poll [fistHand], .poll [fistHand],
   .poll [fistHand], .poll [fistHand], .poll [fistHand], .poll [fistHand],
   .poll [fistHand], .poll [fistHand],
   .tick ⟨1, 0, 0⟩, .tick ⟨1, 0, 0⟩, .tick ⟨1, 0, 0⟩, .tick ⟨1, 0, 0⟩,
   .tick ⟨0.5, 0, 0⟩, .tick ⟨0.5, 0, 0⟩, .tick ⟨0.5, 0, 0⟩, .tick ⟨0.5, 0, 0⟩]

/-- C4, counterexample.  `carX` is not clamped to the track half-width:
the concrete run `driftRun`, starting from the reset state, leaves the
vehicle at `carX` above 12.85 — beyond the track half-width
`ROAD_WIDTH / 2 = 12` (and beyond the barrier rails at x = 10-11) — while
the race is still running with positive health.  Only the barrier-penalty
health drain responds to the excursion; no code path clamps the value. -/
theorem carX_not_clamped :
    ROAD_WIDTH / 2 < (runEvents initState driftRun).carX ∧
    (runEvents initState driftRun).gameOver = false ∧
    0 < (runEvents initState driftRun).health := by
  have hinit : initState =
      raceSt 0 0 0 100 DriveState.NEUTRAL 1 AiMsg.SYSTEM_ONLINE AiMsgType.INFO := rfl
  have p1 : stepPoll (raceSt 0 0 0 100 DriveState.NEUTRAL 1 AiMsg.SYSTEM_ONLINE AiMsgType.INFO) [fistHand] =
      raceSt 0.3 0 0 100 DriveState.BRAKING 1 AiMsg.SYSTEM_ONLINE AiMsgType.INFO := by
    rw [stepPoll_fist _ rfl]
    apply GState.ext <;> norm_num [raceSt]
  have p2 : stepPoll (raceSt 0.3 0 0 100 DriveState.BRAKING 1 AiMsg.SYSTEM_ONLINE AiMsgType.INFO) [fistHand] =
      raceSt 0.51 0 0 100 DriveState.BRAKING 1 AiMsg.SYSTEM_ONLINE AiMsgType.INFO := by
    rw [stepPoll_fist _ rfl]
    apply GState.ext <;> norm_num [raceSt]
  have p3 : stepPoll (raceSt 0.51 0 0 100 DriveState.BRAKING 1 AiMsg.SYSTEM_ONLINE AiMsgType.INFO) [fistHand] =
      raceSt 0.657 0 0 100 DriveState.BRAKING 1 AiMsg.SYSTEM_ONLINE AiMsgType.INFO := by
    rw [stepPoll_fist _ rfl]
    apply GState.ext <;> norm_num [raceSt]
  have p4 : stepPoll (raceSt 0.657 0 0 100 DriveState.BRAKING 1 AiMsg.SYSTEM_ONLINE AiMsgType.INFO) [fistHand] =
      raceSt 0.7599 0 0 100 DriveState.BRAKING 1 AiMsg.SYSTEM_ONLINE AiMsgType.INFO := by
    rw [stepPoll_fist _ rfl]
    apply GState.ext <;> norm_num [raceSt]
  have p5 : stepPoll (raceSt 0.7599 0 0 100 DriveState.BRAKING 1 AiMsg.SYSTEM_ONLINE AiMsgType.INFO) [fistHand] =
      raceSt 0.83193 0 0 100 DriveState.BRAKING 1 AiMsg.SYSTEM_ONLINE AiMsgType.INFO := by
    rw [stepPoll_fist _ rfl]
    apply GState.ext <;> norm_num [raceSt]
  have p6 : stepPoll (raceSt 0.83193 0 0 100 DriveState.BRAKING 1 AiMsg.SYSTEM_ONLINE AiMsgType.INFO) [fistHand] =
      raceSt 0.882351 0 0 100 DriveState.BRAKING 1 AiMsg.SYSTEM_ONLINE AiMsgType.INFO := by
    rw [stepPoll_fist _ rfl]
    apply GState.ext <;> norm_num [raceSt]
  have p7 : stepPoll (raceSt 0.882351 0 0 100 DriveState.BRAKING 1 AiMsg.SYSTEM_ONLINE AiMsgType.INFO) [fistHand] =
      raceSt 0.9176457 0 0 100 DriveState.BRAKING 1 AiMsg.SYSTEM_ONLINE AiMsgType.INFO := by
    rw [stepPoll_fist _ rfl]
    apply GState.ext <;> norm_num [raceSt]
  have p8 : stepPoll (raceSt 0.9176457 0 0 100 DriveState.BRAKING 1 AiMsg.SYSTEM_ONLINE AiMsgType.INFO) [fistHand] =
      raceSt 0.94235199 0 0 100 DriveState.BRAKING 1 AiMsg.SYSTEM_ONLINE AiMsgType.INFO := by
    rw [stepPoll_fist _ rfl]
    apply GState.ext <;> norm_num [raceSt]
  have p9 : stepPoll (raceSt 0.94235199 0 0 100 DriveState.BRAKING 1 AiMsg.SYSTEM_ONLINE AiMsgType.INFO) [fistHand] =
      raceSt 0.959646393 0 0 100 DriveState.BRAKING 1 AiMsg.SYSTEM_ONLINE AiMsgType.INFO := by
    rw [stepPoll_fist _ rfl]
    apply GState.ext <;> norm_num [raceSt]
  have p10 : stepPoll (raceSt 0.959646393 0 0 100 DriveState.BRAKING 1 AiMsg.SYSTEM_ONLINE AiMsgType.INFO) [fistHand] =
      raceSt 0.9717524751 0 0 100 DriveState.BRAKING 1 AiMsg.SYSTEM_ONLINE AiMsgType.INFO := by
    rw [stepPoll_fist _ rfl]
    apply GState.ext <;> norm_num [raceSt]
  have t1 : animate (raceSt 0.9717524751 0 0 100 DriveState.BRAKING 1 AiMsg.SYSTEM_ONLINE AiMsgType.INFO) ⟨1, 0, 0⟩ =
      raceSt 0.9717524751 0.09717524751 0.68022673257 100 DriveState.BRAKING 2 AiMsg.SYSTEM_ONLINE AiMsgType.INFO := by
    rw [animate_brake_safe _ _ rfl rfl rfl rfl rfl rfl rfl rfl rfl
      (by norm_num)
      (abs_le.mpr ⟨by norm_num [raceSt], by norm_num [raceSt]⟩)]
    apply GState.ext <;> norm_num [raceSt]
  have t2 : animate (raceSt 0.9717524751 0.09717524751 0.68022673257 100 DriveState.BRAKING 2 AiMsg.SYSTEM_ONLINE AiMsgType.INFO) ⟨1, 0, 0⟩ =
      raceSt 0.9717524751 0.184632970269 1.972657524453 100 DriveState.BRAKING 2 AiMsg.SYSTEM_ONLINE AiMsgType.INFO := by
    rw [animate_brake_safe _ _ rfl rfl rfl rfl rfl rfl rfl rfl rfl
      (by norm_num)
      (abs_le.mpr ⟨by norm_num [raceSt], by norm_num [raceSt]⟩)]
    apply GState.ext <;> norm_num [raceSt]
  have t3 : animate (raceSt 0.9717524751 0.184632970269 1.972657524453 100 DriveState.BRAKING 2 AiMsg.SYSTEM_ONLINE AiMsgType.INFO) ⟨1, 0, 0⟩ =
      raceSt 0.9717524751 0.2633449207521 3.8160719697177 100 DriveState.BRAKING 2 AiMsg.SYSTEM_ONLINE AiMsgType.INFO := by
    rw [animate_brake_safe _ _ rfl rfl rfl rfl rfl rfl rfl rfl rfl
      (by norm_num)
      (abs_le.mpr ⟨by norm_num [raceSt], by norm_num [raceSt]⟩)]
    apply GState.ext <;> norm_num [raceSt]
  have t4 : animate (raceSt 0.9717524751 0.2633449207521 3.8160719697177 100 DriveState.BRAKING 2 AiMsg.SYSTEM_ONLINE AiMsgType.INFO) ⟨1, 0, 0⟩ =
      raceSt 0.9717524751 0.33418567618689 6.15537170302593 100 DriveState.BRAKING 2 AiMsg.SYSTEM_ONLINE AiMsgType.INFO := by
    rw [animate_brake_safe _ _ rfl rfl rfl rfl rfl rfl rfl rfl rfl
      (by norm_num)
      (abs_le.mpr ⟨by norm_num [raceSt], by norm_num [raceSt]⟩)]
    apply GState.ext <;> norm_num [raceSt]
  have t5 : animate (raceSt 0.9717524751 0.33418567618689 6.15537170302593 100 DriveState.BRAKING 2 AiMsg.SYSTEM_ONLINE AiMsgType.INFO) ⟨0.5, 0, 0⟩ =
      raceSt 0.9717524751 0.397942356078201 7.5481699492996335 100 DriveState.BRAKING 2 AiMsg.SYSTEM_ONLINE AiMsgType.INFO := by
    rw [animate_brake_safe _ _ rfl rfl rfl rfl rfl rfl rfl rfl rfl
      (by norm_num)
      (abs_le.mpr ⟨by norm_num [raceSt], by norm_num [raceSt]⟩)]
    apply GState.ext <;> norm_num [raceSt]
  have t6 : animate (raceSt 0.9717524751 0.397942356078201 7.5481699492996335 100 DriveState.BRAKING 2 AiMsg.SYSTEM_ONLINE AiMsgType.INFO) ⟨0.5, 0, 0⟩ =
      raceSt 0.9717524751 0.4553233679803809 9.14180173723096665 70 DriveState.BRAKING 2 AiMsg.BARRIER_WARNING AiMsgType.DANGER := by
    rw [animate_brake_penalty _ _ rfl rfl rfl rfl rfl rfl rfl rfl rfl
      (by norm_num)
      (lt_of_lt_of_le (by norm_num [raceSt]) (le_abs_self _))
      (by norm_num [raceSt])]
    apply GState.ext <;> norm_num [raceSt]
  have t7 : animate (raceSt 0.9717524751 0.4553233679803809 9.14180173723096665 70 DriveState.BRAKING 2 AiMsg.BARRIER_WARNING AiMsgType.DANGER) ⟨0.5, 0, 0⟩ =
      raceSt 0.9717524751 0.50696627869234281 10.916183712654166485 40 DriveState.BRAKING 2 AiMsg.BARRIER_WARNING AiMsgType.DANGER := by
    rw [animate_brake_penalty _ _ rfl rfl rfl rfl rfl rfl rfl rfl rfl
      (by norm_num)
      (lt_of_lt_of_le (by norm_num [raceSt]) (le_abs_self _))
      (by norm_num [raceSt])]
    apply GState.ext <;> norm_num [raceSt]
  have t8 : animate (raceSt 0.9717524751 0.50696627869234281 10.916183712654166485 40 DriveState.BRAKING 2 AiMsg.BARRIER_WARNING AiMsgType.DANGER) ⟨0.5, 0, 0⟩ =
      raceSt 0.9717524751 0.553444898333108529 12.8532408568200463365 10 DriveState.BRAKING 2 AiMsg.BARRIER_WARNING AiMsgType.DANGER := by
    rw [animate_brake_penalty _ _ rfl rfl rfl rfl rfl rfl rfl rfl rfl
      (by norm_num)
      (lt_of_lt_of_le (by norm_num [raceSt]) (le_abs_self _))
      (by norm_num [raceSt])]
    apply GState.ext <;> norm_num [raceSt]
  have hrun : runEvents initState driftRun =
      raceSt 0.9717524751 0.553444898333108529 12.8532408568200463365 10 DriveState.BRAKING 2 AiMsg.BARRIER_WARNING AiMsgType.DANGER := by
    simp only [runEvents, driftRun, List.foldl_cons, List.foldl_nil, stepEv]
    rw [hinit, p1, p2, p3, p4, p5, p6, p7, p8, p9, p10,
      t1, t2, t3, t4, t5, t6, t7, t8]
  rw [hrun]
  refine ⟨by norm_num [raceSt, ROAD_WIDTH], rfl, by norm_num [raceSt]⟩

lemma crash_fatal_health (s : GState) : (crash s true).health = 0 := by
  simp only [crash]
  norm_num

lemma crash_carX (s : GState) (f : Bool) : (crash s f).carX = s.carX := by
  simp only [crash]
  split_ifs <;> rfl

lemma animate_carX_health (s : GState) (e : TickEnv)
    (hp : s.isPaused = false) (hg : s.gameOver = false)
    (hhits : e.obstacleHits = 0) :
    (animate s e).carX = (animateVehicle s e).carX ∧
    (animate s e).health = (animateVehicle s e).health := by
  rw [animate, if_neg (by simp [hp]), if_neg (by simp [hg])]
  unfold updateEntitiesCar animateProgress
  rw [hhits]
  simp only [Function.iterate_zero, id_eq]
  split_ifs <;> exact ⟨rfl, rfl⟩

/-- C4, amended.  `carX` is never clamped; instead the code keeps this
contract: after a tick with no obstacle collision, if the new lateral
position is still within `SIDE_BARRIER_X - 1.5` then no barrier penalty
was applied (health untouched), and if it is beyond that limit then the
barrier penalty did fire this tick — health is at most
`max 0 (health - 60*dt)` (exactly that unless the ensuing fatal crash
zeroed it).  During that penalty state `carX` can exceed even the full
track half-width, as the counterexample run shows. -/
theorem carX_within_limit_unless_penalty (s : GState) (e : TickEnv)
    (hp : s.isPaused = false) (hg : s.gameOver = false)
    (hhits : e.obstacleHits = 0) :
    (|(animate s e).carX| ≤ SIDE_BARRIER_X - 1.5 →
      (animate s e).health = s.health) ∧
    (SIDE_BARRIER_X - 1.5 < |(animate s e).carX| →
      (animate s e).health ≤ max 0 (s.health - 60 * e.dt)) := by
  obtain ⟨hcx, hh⟩ := animate_carX_health s e hp hg hhits
  rw [hcx, hh]
  simp only [animateVehicle]
  split_ifs with hbar hfatal
  · -- penalty fired and the drain was fatal
    constructor
    · intro habs
      rw [crash_carX] at habs
      exfalso
      rcases hbar with hr | hl
      · have := abs_le.mp habs
        linarith [this.2]
      · have := abs_le.mp habs
        linarith [this.1]
    · intro _
      rw [crash_fatal_health]
      exact le_max_left _ _
  · -- penalty fired, survivable
    constructor
    · intro habs
      exfalso
      rcases hbar with hr | hl
      · have := abs_le.mp habs
        linarith [this.2]
      · have := abs_le.mp habs
        linarith [this.1]
    · intro _
      exact le_of_eq rfl
  · -- no penalty: the new position is inside the limit
    constructor
    · intro _
      rfl
    · intro habs
      exfalso
      push_neg at hbar
      have : |_| ≤ SIDE_BARRIER_X - 1.5 := abs_le.mpr ⟨by linarith [hbar.2], hbar.1⟩
      linarith [lt_of_lt_of_le habs this]

/-- Witness for the amended C4: one braking tick from a mid-race state
that stays inside the limit leaves health untouched. -/
theorem carX_within_limit_unless_penalty_witness :
    (animate (raceSt 0.9717524751 0 0 100 DriveState.BRAKING 1
        AiMsg.SYSTEM_ONLINE AiMsgType.INFO) ⟨1, 0, 0⟩).health =
      (raceSt 0.9717524751 0 0 100 DriveState.BRAKING 1
        AiMsg.SYSTEM_ONLINE AiMsgType.INFO).health :=
  (carX_within_limit_unless_penalty _ _ rfl rfl rfl).1 (by
    rw [animate_brake_safe _ _ rfl rfl rfl rfl rfl rfl rfl rfl rfl (by norm_num)
      (abs_le.mpr ⟨by norm_num [raceSt], by norm_num [raceSt]⟩)]
    refine abs_le.mpr ⟨?_, ?_⟩ <;> norm_num [raceSt, SIDE_BARRIER_X])

/-! Speed-update scenarios (C7). -/

/-- The maximum speed of the acceleration/brake scenarios: starter car at
score 0 (difficulty 1). -/
noncomputable def scenarioMaxSpeed : ℝ :=
  5.5 * starterCar.speedMult * (1 + difficultyOf 0 * 0.05)

/-- GAS held from standstill at dt = 1/60 per tick. -/
noncomputable def gasScenario : ℕ → ℝ
  | 0 => 0
  | n + 1 => speedStep .GAS (gasScenario n) (1 / 60) scenarioMaxSpeed

/-- BRAKE held from speed 2.0 at dt = 1/60 per tick. -/
noncomputable def brakeScenario : ℕ → ℝ
  | 0 => 2.0
  | n + 1 => speedStep .BRAKING (brakeScenario n) (1 / 60) scenarioMaxSpeed

lemma scenarioMaxSpeed_eq : scenarioMaxSpeed = 5.775 := by
  unfold scenarioMaxSpeed
  rw [difficultyOf_zero]
  norm_num [starterCar]

lemma accelRate_pos (k : ℝ) : 0 < accelRate k := by
  unfold accelRate
  split_ifs <;> norm_num

lemma gasScenario_closed : ∀ n, n ≤ 60 → gasScenario n = n / 300 := by
  intro n
  induction n with
  | zero => intro _; simp [gasScenario]
  | succ n ih =>
      intro hn
      have hcl := ih (by omega)
      have hn59 : (n : ℝ) ≤ 59 := by exact_mod_cast (by omega : n ≤ 59)
      show speedStep .GAS (gasScenario n) (1 / 60) scenarioMaxSpeed = _
      rw [hcl]
      simp only [speedStep, accelRate, scenarioMaxSpeed_eq]
      split_ifs <;>
        first
          | (exfalso; nlinarith)
          | (push_cast; ring)

lemma brakeScenario_closed : ∀ n, n ≤ 10 → brakeScenario n = 2 - n / 5 := by
  intro n
  induction n with
  | zero => intro _; norm_num [brakeScenario]
  | succ n ih =>
      intro hn
      have hcl := ih (by omega)
      have hn9 : (n : ℝ) ≤ 9 := by exact_mod_cast (by omega : n ≤ 9)
      show speedStep .BRAKING (brakeScenario n) (1 / 60) scenarioMaxSpeed = _
      rw [hcl]
      simp only [speedStep]
      split_ifs <;>
        first
          | (exfalso; nlinarith)
          | (push_cast; ring)

lemma brakeScenario_nonneg : ∀ n, 0 ≤ brakeScenario n
  | 0 => by norm_num [brakeScenario]
  | n + 1 => by
      show 0 ≤ speedStep .BRAKING (brakeScenario n) (1 / 60) scenarioMaxSpeed
      simp only [speedStep]
      split_ifs with h
      · exact le_refl 0
      · exact not_lt.mp h

lemma brakeScenario_ten : brakeScenario 10 = 0 := by
  have h9 := brakeScenario_closed 9 (by omega)
  show speedStep .BRAKING (brakeScenario 9) (1 / 60) scenarioMaxSpeed = 0
  rw [h9]
  simp only [speedStep]
  push_cast
  norm_num

lemma brakeScenario_stays : ∀ n, brakeScenario (10 + n) = 0
  | 0 => brakeScenario_ten
  | n + 1 => by
      have ih := brakeScenario_stays n
      show speedStep .BRAKING (brakeScenario (10 + n)) (1 / 60) scenarioMaxSpeed = 0
      rw [ih]
      simp only [speedStep]
      norm_num

/-- C7.  The per-tick speed update keeps speed within [0, maxSpeed] for
every drive state and positive dt; holding GAS from standstill at
dt = 1/60 (the spec scenario of one simulated second: ticks up to 60) the
speed strictly increases each tick and never exceeds the scenario's
maximum; holding BRAKE from 2.0 the speed reaches exactly 0 at tick 10,
is never negative, and stays 0 forever after. -/
theorem speed_stays_bounded (ds : DriveState) (speed dt maxSpeed : ℝ)
    (h0 : 0 ≤ speed) (h1 : speed ≤ maxSpeed) (h2 : 0 < dt) :
    (0 ≤ speedStep ds speed dt maxSpeed ∧
      speedStep ds speed dt maxSpeed ≤ maxSpeed) ∧
    (∀ n : ℕ, n < 60 → gasScenario n < gasScenario (n + 1) ∧
      gasScenario (n + 1) ≤ scenarioMaxSpeed) ∧
    (brakeScenario 10 = 0 ∧ (∀ n : ℕ, 0 ≤ brakeScenario n) ∧
      ∀ n : ℕ, brakeScenario (10 + n) = 0) := by
  refine ⟨?_, ?_, brakeScenario_ten, brakeScenario_nonneg, brakeScenario_stays⟩
  · cases ds with
    | NEUTRAL =>
        simp only [speedStep]
        split_ifs with h
        · exact ⟨le_refl 0, le_trans h0 h1⟩
        · exact ⟨not_lt.mp h, by nlinarith⟩
    | GAS =>
        simp only [speedStep]
        have hr := accelRate_pos (speed * 60)
        split_ifs with h
        · exact ⟨le_trans h0 h1, le_refl _⟩
        · exact ⟨by nlinarith, not_lt.mp h⟩
    | BRAKING =>
        simp only [speedStep]
        split_ifs with h
        · exact ⟨le_refl 0, le_trans h0 h1⟩
        · exact ⟨not_lt.mp h, by nlinarith⟩
  · intro n hn
    have hc1 := gasScenario_closed n (by omega)
    have hc2 := gasScenario_closed (n + 1) (by omega)
    have hn60 : (n : ℝ) < 60 := by exact_mod_cast hn
    rw [hc1, hc2, scenarioMaxSpeed_eq]
    constructor
    · push_cast
      linarith
    · push_cast
      linarith

/-- Witness for C7 at the first GAS tick of the scenario. -/
theorem speed_stays_bounded_witness :
    0 ≤ speedStep DriveState.GAS 0 (1 / 60) scenarioMaxSpeed ∧
      speedStep DriveState.GAS 0 (1 / 60) scenarioMaxSpeed ≤ scenarioMaxSpeed :=
  (speed_stays_bounded DriveState.GAS 0 (1 / 60) scenarioMaxSpeed le_rfl
    (by rw [scenarioMaxSpeed_eq]; norm_num) (by norm_num)).1

/-! Difficulty and score progression (C8). -/

lemma floor_int_div_real (n : ℤ) (d : ℕ) :
    ⌊(n : ℝ) / ((d : ℕ) : ℝ)⌋ = n / (d : ℤ) := by
  rw [show (n : ℝ) / ((d : ℕ) : ℝ) = (((n : ℚ) / ((d : ℕ) : ℚ) : ℚ) : ℝ) by
    push_cast; ring]
  rw [Rat.floor_cast, Rat.floor_intCast_div_natCast]

/-- The stored difficulty level collapses to a floor division: one level
per 10000 score points, starting at 2. -/
lemma difficultyLevelOf_eq (n : ℤ) : difficultyLevelOf n = 2 + n / 10000 := by
  unfold difficultyLevelOf difficultyOf
  have h2000 : ⌊(n : ℝ) / 2000⌋ = n / 2000 := by
    rw [show ((2000 : ℝ)) = ((2000 : ℕ) : ℝ) by norm_num]
    exact floor_int_div_real n 2000
  rw [h2000]
  have hk : ((n / 2000 : ℤ) : ℝ) * 0.2 = ((n / 2000 : ℤ) : ℝ) / 5 := by ring
  rw [hk]
  have h5 : ⌊((n / 2000 : ℤ) : ℝ) / 5⌋ = (n / 2000) / 5 := by
    rw [show ((5 : ℝ)) = ((5 : ℕ) : ℝ) by norm_num]
    exact floor_int_div_real (n / 2000) 5
  rw [add_comm (1 : ℝ) _, Int.floor_add_one, h5]
  omega

lemma difficultyOf_ge_one (n : ℤ) (h : 0 ≤ n) : 1 ≤ difficultyOf n := by
  unfold difficultyOf
  have hfl : (0 : ℤ) ≤ ⌊(n : ℝ) / 2000⌋ :=
    Int.floor_nonneg.mpr (div_nonneg (by exact_mod_cast h) (by norm_num))
  have hfl2 : (0 : ℝ) ≤ (⌊(n : ℝ) / 2000⌋ : ℝ) := by exact_mod_cast hfl
  nlinarith

lemma speedStep_nonneg (ds : DriveState) (speed dt maxSpeed : ℝ)
    (h0 : 0 ≤ speed) (hdt : 0 ≤ dt) (hms : 0 ≤ maxSpeed) :
    0 ≤ speedStep ds speed dt maxSpeed := by
  cases ds with
  | NEUTRAL =>
      simp only [speedStep]
      split_ifs with h
      · exact le_refl 0
      · exact not_lt.mp h
  | GAS =>
      simp only [speedStep]
      have hr := accelRate_pos (speed * 60)
      split_ifs with h
      · exact hms
      · nlinarith
  | BRAKING =>
      simp only [speedStep]
      split_ifs with h
      · exact le_refl 0
      · exact not_lt.mp h

lemma crash_score (s : GState) (f : Bool) : (crash s f).score = s.score := by
  simp only [crash]
  split_ifs <;> rfl

lemma crash_difficultyLevel (s : GState) (f : Bool) :
    (crash s f).difficultyLevel = s.difficultyLevel := by
  simp only [crash]
  split_ifs <;> rfl

lemma crash_speed (s : GState) (f : Bool) : (crash s f).speed = s.speed * 0.2 := by
  simp only [crash]
  split_ifs <;> rfl

lemma crashIter_score : ∀ (n : ℕ) (s : GState),
    ((fun st => crash st false)^[n] s).score = s.score
  | 0, s => rfl
  | n + 1, s => by
      rw [Function.iterate_succ_apply, crashIter_score n, crash_score]

lemma crashIter_difficultyLevel : ∀ (n : ℕ) (s : GState),
    ((fun st => crash st false)^[n] s).difficultyLevel = s.difficultyLevel
  | 0, s => rfl
  | n + 1, s => by
      rw [Function.iterate_succ_apply, crashIter_difficultyLevel n,
        crash_difficultyLevel]

lemma updateEntitiesCar_score (s : GState) (e : TickEnv) :
    (updateEntitiesCar s e).score = s.score := by
  simp only [updateEntitiesCar]
  split_ifs <;> simp [crashIter_score]

lemma updateEntitiesCar_difficultyLevel (s : GState) (e : TickEnv) :
    (updateEntitiesCar s e).difficultyLevel = s.difficultyLevel := by
  simp only [updateEntitiesCar]
  split_ifs <;> simp [crashIter_difficultyLevel]

lemma animateProgress_score (s : GState) (e : TickEnv) :
    (animateProgress s e).score = s.score + ⌊s.speed * 40 * e.dt / 2⌋ := rfl

lemma animateProgress_difficultyLevel (s : GState) (e : TickEnv) :
    (animateProgress s e).difficultyLevel = s.difficultyLevel := rfl

lemma animateVehicle_score (s : GState) (e : TickEnv) :
    (animateVehicle s e).score = s.score := by
  simp only [animateVehicle]
  split_ifs <;> simp [crash_score]

lemma animateVehicle_difficultyLevel (s : GState) (e : TickEnv) :
    (animateVehicle s e).difficultyLevel = ⌊difficultyOf s.score⌋ + 1 := by
  simp only [animateVehicle]
  split_ifs <;> simp [crash_difficultyLevel]

lemma animateVehicle_speed_nonneg (s : GState) (e : TickEnv)
    (h0 : 0 ≤ s.speed) (hdt : 0 ≤ e.dt) (hsc : 0 ≤ s.score)
    (hcar : 0 ≤ (currentCarOf s).speedMult) :
    0 ≤ (animateVehicle s e).speed := by
  have hd1 := difficultyOf_ge_one s.score hsc
  have hms : 0 ≤ 5.5 * (currentCarOf s).speedMult *
      (1 + difficultyOf s.score * 0.05) := by nlinarith
  have hss := speedStep_nonneg s.driveState s.speed e.dt _ h0 hdt hms
  simp only [animateVehicle]
  split_ifs with hbar hfatal
  · rw [crash_speed]
    show (0:ℝ) ≤ _ * 0.95 * 0.2
    nlinarith
  · show (0:ℝ) ≤ _ * 0.95
    nlinarith
  · exact hss

/-- C8.  The stored difficulty level is an integer at least 1 (at least 2,
in fact, once a tick has run), derived deterministically from the score by
a floor division — one level per 10000 points — hence monotonically
nondecreasing along a run, because the score itself never decreases: each
tick adds the floored nonnegative distance moved. -/
theorem difficulty_progression (s : GState) (e : TickEnv)
    (hscore : 0 ≤ s.score) (hspeed : 0 ≤ s.speed) (hdt : 0 ≤ e.dt)
    (hcar : 0 ≤ (currentCarOf s).speedMult) :
    1 ≤ difficultyLevelOf s.score ∧
    difficultyLevelOf s.score = 2 + s.score / 10000 ∧
    (∀ n m : ℤ, n ≤ m → difficultyLevelOf n ≤ difficultyLevelOf m) ∧
    s.score ≤ (animate s e).score ∧
    (s.isPaused = false → s.gameOver = false →
      (animate s e).difficultyLevel = difficultyLevelOf s.score) := by
  refine ⟨?_, difficultyLevelOf_eq s.score, ?_, ?_, ?_⟩
  · rw [difficultyLevelOf_eq]
    omega
  · intro n m h
    rw [difficultyLevelOf_eq, difficultyLevelOf_eq]
    omega
  · unfold animate
    split_ifs with h1 h2
    · exact le_refl _
    · exact le_refl _
    · rw [updateEntitiesCar_score, animateProgress_score, animateVehicle_score]
      have hsp2 := animateVehicle_speed_nonneg s e hspeed hdt hscore hcar
      have hfl : (0 : ℤ) ≤ ⌊(animateVehicle s e).speed * 40 * e.dt / 2⌋ :=
        Int.floor_nonneg.mpr
          (div_nonneg (mul_nonneg (mul_nonneg hsp2 (by norm_num)) hdt)
            (by norm_num))
      omega
  · intro hp hg
    rw [animate, if_neg (by simp [hp]), if_neg (by simp [hg]),
      updateEntitiesCar_difficultyLevel, animateProgress_difficultyLevel,
      animateVehicle_difficultyLevel]
    rfl

/-- Witness for C8 at the freshly reset state and a one-second tick. -/
theorem difficulty_progression_witness :
    1 ≤ difficultyLevelOf initState.score ∧
      initState.score ≤ (animate initState ⟨1, 0, 0⟩).score :=
  have hcar : 0 ≤ (currentCarOf initState).speedMult := by
    rw [currentCarOf_starter initState rfl rfl]
    norm_num [starterCar]
  ⟨(difficulty_progression initState ⟨1, 0, 0⟩ le_rfl le_rfl (by norm_num)
      hcar).1,
   (difficulty_progression initState ⟨1, 0, 0⟩ le_rfl le_rfl (by norm_num)
      hcar).2.2.2.1⟩

end GestureRacer
